import Mathlib

/-!
Shallow embedding of the OpenMarch canvas/viewport subsystem and the
MarcherPage database table, with theorems checking the specification's
claims against the code.

Sources embedded:
* `src/global/classes/canvasObjects/OpenMarchCanvas.ts`
  (zoomContainer, fitToScreen, renderMarchers, setUiSettings,
  sensitivity setters, setActiveObjects, toSVG)
* `electron/database/tables/MarcherPageTable.ts`
  (getMarcherPages, isLocked, updateMarcherPages)

Numeric values carried by the canvas are modelled as rationals.
-/

namespace OpenMarch

/-! ### Viewport transform (OpenMarchCanvas.transformValues) -/

/-- CSS transform values for the canvas container
(`OpenMarchCanvas.transformValues`). -/
structure TransformValues where
  translateX : ℚ
  translateY : ℚ
  scale : ℚ
  originX : ℚ
  originY : ℚ
deriving DecidableEq

/-- Zoom limit `MIN_ZOOM = 0.5` from OpenMarchCanvas.ts. -/
def MIN_ZOOM : ℚ := 1/2

/-- Zoom limit `MAX_ZOOM = 2.0` from OpenMarchCanvas.ts. -/
def MAX_ZOOM : ℚ := 2

/-- Result of a `zoomContainer` call: the transform values after the call and
the number of zoom-limit notifications shown (`showZoomLimitFeedback` calls). -/
structure ZoomResult where
  transformValues : TransformValues
  notifications : ℕ
deriving DecidableEq

/-- Embedding of `OpenMarchCanvas.zoomContainer(factor, clientX, clientY)`.
`x`/`y` are the anchor coordinates already made relative to the container
(`clientX - rect.left`, `clientY - rect.top` in the source). The early
`return` paths at the zoom limits leave the transform untouched and show one
limit notification; the small-change path returns with no notification. -/
def zoomContainer (tv : TransformValues) (factor x y : ℚ) : ZoomResult :=
  let prevScale := tv.scale
  let dampedFactor :=
    if 1 < factor then 1 + (factor - 1) * (1/2)
    else 1 - (1 - factor) * (1/2)
  let newScale0 := prevScale * dampedFactor
  if prevScale ≤ MIN_ZOOM ∧ factor < 1 then
    { transformValues := tv, notifications := 1 }
  else if MAX_ZOOM ≤ prevScale ∧ 1 < factor then
    { transformValues := tv, notifications := 1 }
  else
    let newScale := max MIN_ZOOM (min MAX_ZOOM newScale0)
    if |newScale - prevScale| < 1/10000 then
      { transformValues := tv, notifications := 0 }
    else
      let scaleFactor := newScale / prevScale
      { transformValues :=
          { translateX := x - (x - tv.translateX) * scaleFactor
            translateY := y - (y - tv.translateY) * scaleFactor
            scale := newScale
            originX := x
            originY := y }
        notifications := 0 }

/-- Embedding of `OpenMarchCanvas.fitToScreen`: computes the fit scale from
the field and viewport dimensions, clamps it to the zoom limits and centers
the field. -/
def fitToScreen (tv : TransformValues)
    (fieldWidth fieldHeight viewportWidth viewportHeight : ℚ) :
    TransformValues :=
  let margin : ℚ := 40
  let scaleX := (viewportWidth - margin) / fieldWidth
  let scaleY := (viewportHeight - margin) / fieldHeight
  let scale0 := min scaleX scaleY * (8/10)
  let scale := max MIN_ZOOM (min MAX_ZOOM scale0)
  let translateX := viewportWidth / 2 - fieldWidth / 2 * scale
  let translateY := viewportHeight / 2 - fieldHeight / 2 * scale
  { tv with translateX := translateX, translateY := translateY,
            scale := scale }

/-! ### Marchers, MarcherPages and scene reconciliation -/

/-- A Marcher row: identity and section (the fields `renderMarchers` uses).
`sec` embeds the source's `section` field (a Lean keyword). -/
structure Marcher where
  id : ℤ
  sec : String
deriving DecidableEq

/-- A MarcherPage row: the (x, y) position of one marcher at one page
(`src/global/classes/MarcherPage`, `marcher_pages` table). -/
structure MarcherPage where
  id : ℤ
  marcher_id : ℤ
  page_id : ℤ
  x : ℚ
  y : ℚ
deriving DecidableEq

/-- A drawable CanvasMarcher: holds its `marcherObj` and the `marcherPage`
whose coordinates it currently displays. -/
structure CanvasMarcher where
  marcherObj : Marcher
  marcherPage : MarcherPage
deriving DecidableEq

/-- Modelled from the spec: `CanvasMarcher.setMarcherCoords` lives outside
the provided sources; per the spec, an existing drawable's displayed
coordinates are updated in place. -/
def setMarcherCoords (cm : CanvasMarcher) (mp : MarcherPage) : CanvasMarcher :=
  { cm with marcherPage := mp }

/-- Result of a `renderMarchers` call: the CanvasMarcher drawables afterwards
and the number of creates, in-place coordinate updates (a
`setMarcherCoords` call that changes the displayed coordinates), and
removals performed. -/
structure RenderResult where
  canvas : List CanvasMarcher
  creates : ℕ
  updates : ℕ
  removes : ℕ
deriving DecidableEq

/-- Embedding of `OpenMarchCanvas.renderMarchers`. The canvas's CanvasMarcher
drawables are the list `canvas`. Exactly as in the source:
the lookup map `canvasMarchersMap` is built once from the canvas before the
loop (newly created drawables are not added to it), a position row whose
marcher is absent from `allMarchers` is skipped, and the removal pass runs
only when `marcherPageMarcherIds.size !== canvasMarchersMap.size`. -/
def renderMarchers (canvas : List CanvasMarcher)
    (currentMarcherPages : List MarcherPage) (allMarchers : List Marcher) :
    RenderResult :=
  let canvasMapFind := fun (mid : ℤ) =>
    canvas.find? (fun cm => cm.marcherObj.id == mid)
  let canvasMapSize := (canvas.map (fun cm => cm.marcherObj.id)).dedup.length
  let phase1 := currentMarcherPages.foldl
    (fun (acc : List CanvasMarcher × ℕ × ℕ) mp =>
      match canvasMapFind mp.marcher_id with
      | some _ =>
        let changed := acc.1.any
          (fun cm => cm.marcherObj.id == mp.marcher_id &&
                     cm.marcherPage != mp)
        (acc.1.map (fun cm =>
            if cm.marcherObj.id == mp.marcher_id then setMarcherCoords cm mp
            else cm),
         acc.2.1, acc.2.2 + (if changed then 1 else 0))
      | none =>
        match allMarchers.find? (fun m => m.id == mp.marcher_id) with
        | none => acc
        | some m => (acc.1 ++ [⟨m, mp⟩], acc.2.1 + 1, acc.2.2))
    (canvas, 0, 0)
  let marcherPageMarcherIds :=
    (currentMarcherPages.map (fun mp => mp.marcher_id)).dedup
  let origIds := (canvas.map (fun cm => cm.marcherObj.id)).dedup
  if marcherPageMarcherIds.length ≠ canvasMapSize then
    let removedIds :=
      origIds.filter (fun i => !(marcherPageMarcherIds.contains i))
    { canvas := phase1.1.filter
        (fun cm => !(removedIds.contains cm.marcherObj.id))
      creates := phase1.2.1
      updates := phase1.2.2
      removes := removedIds.length }
  else
    { canvas := phase1.1
      creates := phase1.2.1
      updates := phase1.2.2
      removes := 0 }

/-- Marcher roster used for the concrete reconciliation scenarios. -/
def exMarchers : List Marcher := [⟨1, "Trumpet"⟩, ⟨2, "Flute"⟩]

/-- Position row placing marcher 1 on page 1. -/
def exPageRow1 : MarcherPage := ⟨1, 1, 1, 50, 50⟩

/-- Position row placing marcher 2 on page 1. -/
def exPageRow2 : MarcherPage := ⟨2, 2, 1, 60, 60⟩

/-! ### MarcherPageTable (electron/database/tables/MarcherPageTable.ts) -/

/-- Arguments of a MarcherPage update: key (marcher_id, page_id) plus the new
position. -/
structure ModifiedMarcherPageArgs where
  marcher_id : ℤ
  page_id : ℤ
  x : ℚ
  y : ℚ
deriving DecidableEq

/-- The database state visible to MarcherPageTable: the `marcher_pages` rows
and the ShapePageMarcher join rows as (marcher_id, page_id) pairs. -/
structure DbState where
  marcherPages : List MarcherPage
  spms : List (ℤ × ℤ)
deriving DecidableEq

/-- Modelled from the spec: `getSpmByMarcherPage` (ShapePageMarcherTable.ts is
outside the provided sources) looks up the ShapePageMarcher record for the
given marcher_id and page_id. -/
def getSpmByMarcherPage (db : DbState) (marcher_id page_id : ℤ) :
    Option (ℤ × ℤ) :=
  db.spms.find? (fun p => p.1 == marcher_id && p.2 == page_id)

/-- Embedding of `isLocked` from MarcherPageTable.ts: a MarcherPage is locked
iff a ShapePageMarcher record exists for its marcher_id and page_id. -/
def isLocked (db : DbState) (marcherId pageId : ℤ) : Bool :=
  (getSpmByMarcherPage db marcherId pageId).isSome

/-- The `SELECT id ... WHERE marcher_id = ... AND page_id = ...` lookup used
by `updateMarcherPages`. -/
def findRow (db : DbState) (u : ModifiedMarcherPageArgs) :
    Option MarcherPage :=
  db.marcherPages.find?
    (fun r => r.marcher_id == u.marcher_id && r.page_id == u.page_id)

/-- First loop of `updateMarcherPages`: resolve each update's row id (the
lookup's `.id` access throws when the row is absent, modelled as `none`,
aborting before anything is written), skip the update when the row is locked
and this is not a child action, and collect the surviving updates in order. -/
def buildItems (db : DbState) (isChildAction : Bool) :
    List ModifiedMarcherPageArgs →
    Option (List (ℤ × ModifiedMarcherPageArgs))
  | [] => some []
  | u :: rest =>
    (findRow db u).bind (fun r =>
      (buildItems db isChildAction rest).map (fun tail =>
        let mpIsLocked :=
          if isChildAction then false
          else isLocked db u.marcher_id u.page_id
        if mpIsLocked then tail else (r.id, u) :: tail))

/-- Modelled from the spec: `DbActions.updateItems` (DatabaseActions.ts is
outside the provided sources) applies each collected update to the row with
the matching id, writing the new position. -/
def applyItems (mps : List MarcherPage)
    (items : List (ℤ × ModifiedMarcherPageArgs)) : List MarcherPage :=
  items.foldl
    (fun acc it =>
      acc.map (fun r =>
        if r.id == it.1 then { r with x := it.2.x, y := it.2.y } else r))
    mps

/-- Embedding of `updateMarcherPages` from MarcherPageTable.ts: collect the
updates that survive the lock check, then apply them. -/
def updateMarcherPages (db : DbState)
    (marcherPageUpdates : List ModifiedMarcherPageArgs)
    (isChildAction : Bool := false) : Option DbState :=
  (buildItems db isChildAction marcherPageUpdates).map
    (fun items => { db with marcherPages := applyItems db.marcherPages items })

/-- JavaScript truthiness of an optional numeric argument: present and
nonzero. -/
def truthy (o : Option ℤ) : Bool :=
  match o with
  | some n => n != 0
  | none => false

/-- Embedding of `getMarcherPages` from MarcherPageTable.ts: the filters are
chosen by testing `args.marcher_id` and `args.page_id` for truthiness, so an
id of 0 behaves like an absent filter. -/
def getMarcherPages (db : DbState) (marcher_id page_id : Option ℤ) :
    List MarcherPage :=
  if truthy marcher_id && truthy page_id then
    db.marcherPages.filter
      (fun r => r.marcher_id == marcher_id.getD 0 &&
                r.page_id == page_id.getD 0)
  else if truthy marcher_id then
    db.marcherPages.filter (fun r => r.marcher_id == marcher_id.getD 0)
  else if truthy page_id then
    db.marcherPages.filter (fun r => r.page_id == page_id.getD 0)
  else
    db.marcherPages

/-- Concrete database used in the query and locking scenarios: marcher 0 and
marcher 1 each have a row on page 1; the (marcher 2, page 1) row is locked by
a ShapePageMarcher record. -/
def exDb : DbState :=
  { marcherPages :=
      [⟨10, 0, 1, 5, 5⟩, ⟨11, 1, 1, 6, 6⟩, ⟨12, 2, 1, 7, 7⟩]
    spms := [(2, 1)] }

/-! ### SVG export (OpenMarchCanvas.toSVG) -/

/-- The canvas state `toSVG` saves and restores: the fabric viewport
transform (a 6-entry matrix) and the canvas width and height. -/
structure CanvasView where
  viewportTransform : List ℚ
  width : ℚ
  height : ℚ
deriving DecidableEq

/-- Embedding of `OpenMarchCanvas.toSVG`. `exportResult` stands for the
outcome of the third-party `super.toSVG` call (the rendering library is an
external collaborator). The function returns the caller-visible result (the
SVG string, or the wrapped error message thrown from the catch block) paired
with the canvas state after the call. Exactly as in the source, the restore
statements sit inside the `try` after the export call: the success path
restores the saved values (substituting the field dimensions for a falsy
saved width or height), while the failure path rethrows from the catch block
with the canvas still holding the identity viewport and field dimensions. -/
def toSVG (c : CanvasView) (fieldWidth fieldHeight : ℚ)
    (exportResult : Except String String) :
    Except String String × CanvasView :=
  let originalVPT := c.viewportTransform
  let originalWidth := c.width
  let originalHeight := c.height
  let exportState : CanvasView :=
    { viewportTransform := [1, 0, 0, 1, 0, 0]
      width := fieldWidth
      height := fieldHeight }
  match exportResult with
  | Except.ok svgString =>
    (Except.ok svgString,
     { viewportTransform := originalVPT
       width := if originalWidth ≠ 0 then originalWidth else fieldWidth
       height := if originalHeight ≠ 0 then originalHeight else fieldHeight })
  | Except.error msg =>
    (Except.error ("Failed to export canvas to SVG: " ++ msg), exportState)

/-! ### UI settings, sensitivities and the field grid -/

/-- Mouse-related UI settings consumed by the canvas. -/
structure MouseSettings where
  trackpadMode : Bool
  panSensitivity : ℚ
  trackpadPanSensitivity : ℚ
  zoomSensitivity : ℚ
  enableCanvasPanning : Bool
deriving DecidableEq

/-- The UI settings fields the canvas reads (`UiSettingsStore`). -/
structure UiSettings where
  gridLines : Bool
  halfLines : Bool
  lockX : Bool
  lockY : Bool
  mouseSettings : MouseSettings
deriving DecidableEq

/-- The cached static field grid (`staticGridRef`): the visibility flags it
was built from, plus a generation counter that increases every time
`renderFieldGrid` replaces the grid object wholesale. -/
structure FieldGrid where
  gridLines : Bool
  halfLines : Bool
  generation : ℕ
deriving DecidableEq

/-- The canvas state touched by `setUiSettings` and the sensitivity
setters. -/
structure CanvasUiState where
  uiSettings : UiSettings
  trackpadModeEnabled : Bool
  panSensitivity : ℚ
  trackpadPanSensitivity : ℚ
  zoomSensitivity : ℚ
  staticGrid : FieldGrid
deriving DecidableEq

/-- Embedding of `renderFieldGrid`: rebuilds the grid from the current UI
settings' flags and replaces `staticGridRef` wholesale (a fresh
generation). -/
def renderFieldGrid (s : CanvasUiState) : CanvasUiState :=
  { s with staticGrid :=
      { gridLines := s.uiSettings.gridLines
        halfLines := s.uiSettings.halfLines
        generation := s.staticGrid.generation + 1 } }

/-- Embedding of `setUiSettings`: stores the new settings, copies trackpad
mode, copies each truthy sensitivity value unclamped, and rebuilds the field
grid exactly when the gridLines or halfLines flag changed. The second
component counts the `renderFieldGrid` calls the operation performed. -/
def setUiSettings (s : CanvasUiState) (uiSettings : UiSettings) :
    CanvasUiState × ℕ :=
  let oldUiSettings := s.uiSettings
  let s1 : CanvasUiState :=
    { s with
      uiSettings := uiSettings
      trackpadModeEnabled := uiSettings.mouseSettings.trackpadMode
      panSensitivity :=
        if uiSettings.mouseSettings.panSensitivity ≠ 0 then
          uiSettings.mouseSettings.panSensitivity
        else s.panSensitivity
      trackpadPanSensitivity :=
        if uiSettings.mouseSettings.trackpadPanSensitivity ≠ 0 then
          uiSettings.mouseSettings.trackpadPanSensitivity
        else s.trackpadPanSensitivity
      zoomSensitivity :=
        if uiSettings.mouseSettings.zoomSensitivity ≠ 0 then
          uiSettings.mouseSettings.zoomSensitivity
        else s.zoomSensitivity }
  if oldUiSettings.gridLines ≠ uiSettings.gridLines ∨
     oldUiSettings.halfLines ≠ uiSettings.halfLines then
    (renderFieldGrid s1, 1)
  else
    (s1, 0)

/-- Embedding of `setPanSensitivity`: clamps into [0.1, 3.0]. -/
def setPanSensitivity (s : CanvasUiState) (value : ℚ) : CanvasUiState :=
  { s with panSensitivity := max (1/10) (min 3 value) }

/-- Embedding of `setTrackpadPanSensitivity`: clamps into [0.1, 3.0]. -/
def setTrackpadPanSensitivity (s : CanvasUiState) (value : ℚ) :
    CanvasUiState :=
  { s with trackpadPanSensitivity := max (1/10) (min 3 value) }

/-- Embedding of `setZoomSensitivity`: clamps into [0.01, 0.5]. -/
def setZoomSensitivity (s : CanvasUiState) (value : ℚ) : CanvasUiState :=
  { s with zoomSensitivity := max (1/100) (min (1/2) value) }

/-- Concrete UI settings with all sensitivities at their defaults. -/
def exUiSettings : UiSettings :=
  { gridLines := true
    halfLines := true
    lockX := false
    lockY := false
    mouseSettings :=
      { trackpadMode := false
        panSensitivity := 1/2
        trackpadPanSensitivity := 1/2
        zoomSensitivity := 3/100
        enableCanvasPanning := true } }

/-- Concrete canvas UI state built from `exUiSettings`. -/
def exCanvasUiState : CanvasUiState :=
  { uiSettings := exUiSettings
    trackpadModeEnabled := false
    panSensitivity := 1/2
    trackpadPanSensitivity := 1/2
    zoomSensitivity := 3/100
    staticGrid := { gridLines := true, halfLines := true, generation := 1 } }

/-! ### Selection (OpenMarchCanvas.setActiveObjects) -/

/-- The canvas's active selection: nothing, a single object, or a grouped
ActiveSelection. Objects are identified by their marcher ids. -/
inductive SelectionState where
  | noneSel : SelectionState
  | single : ℤ → SelectionState
  | group : List ℤ → SelectionState
deriving DecidableEq

/-- The selection-relevant canvas state: the `handleSelectLock` re-entrancy
flag and the active selection. -/
structure SelCanvas where
  handleSelectLock : Bool
  activeSelection : SelectionState
deriving DecidableEq

/-- The selection produced by the unlocked body of `setActiveObjects`: one
object is selected directly, several become a grouped ActiveSelection, zero
clears the selection. -/
def selectionOf (objs : List ℤ) : SelectionState :=
  match objs with
  | [] => SelectionState.noneSel
  | [o] => SelectionState.single o
  | os => SelectionState.group os

/-- Embedding of `setActiveObjects`: returns immediately when
`handleSelectLock` is set; otherwise sets the lock, performs the selection
change, and releases the lock before returning. -/
def setActiveObjects (c : SelCanvas) (newSelectedObjects : List ℤ) :
    SelCanvas :=
  if c.handleSelectLock then c
  else
    { handleSelectLock := false
      activeSelection := selectionOf newSelectedObjects }

/-- The canvas state during the locked window of a top-level
`setActiveObjects` call: the lock is held and the selection change has been
applied. Selection-changed handlers fired by the selection change observe
this state. -/
def setActiveObjectsMid (newSelectedObjects : List ℤ) : SelCanvas :=
  { handleSelectLock := true
    activeSelection := selectionOf newSelectedObjects }

/-- The canvas view used in the SVG export scenario. -/
def exCanvasView : CanvasView :=
  { viewportTransform := [2, 0, 0, 2, 5, 7], width := 800, height := 600 }

/-- UI settings equal to `exUiSettings` except for an out-of-range pan
sensitivity of 100. -/
def exUiSettingsPan100 : UiSettings :=
  { exUiSettings with
    mouseSettings :=
      { exUiSettings.mouseSettings with panSensitivity := 100 } }

/-- Database state after applying the unlocked update of the locking
scenario: the (marcher 1, page 1) row moved to (99, 99), the locked
(marcher 2, page 1) row untouched. -/
def exDbAfter : DbState :=
  { marcherPages :=
      [⟨10, 0, 1, 5, 5⟩, ⟨11, 1, 1, 99, 99⟩, ⟨12, 2, 1, 7, 7⟩]
    spms := [(2, 1)] }

/-! ## Theorems -/

/-- C2: after the two-call scenario reaching a canvas that draws marcher 1,
a `renderMarchers` call whose position rows mention only marcher 2 leaves
drawables for marchers 1 and 2 on the canvas — the stale drawable for
marcher 1 is not removed, because the removal pass only runs when the row
count differs from the (pre-insertion) drawable count. The drawable identity
set therefore does not equal the supplied row identity set, refuting
reconciliation completeness; the comment over the removal pass ("Check for
any canvas marchers that are no longer in the current marcher pages") shows
the guard is a faulty optimization. -/
theorem renderMarchers_keeps_stale_drawable :
    (renderMarchers (renderMarchers [] [exPageRow1] exMarchers).canvas
        [exPageRow2] exMarchers).canvas.map (fun cm => cm.marcherObj.id)
      = [1, 2] ∧
    [exPageRow2].map (fun mp => mp.marcher_id) = [2] ∧
    (renderMarchers (renderMarchers [] [exPageRow1] exMarchers).canvas
        [exPageRow2] exMarchers).removes = 0 := by
  refine ⟨by decide, by decide, by decide⟩

/-- C3: `renderMarchers` is not idempotent. In the reachable state where the
canvas draws marchers 1 and 2 after a call with position rows for marcher 2
only, repeating the exact same call performs an additional removal (the
stale drawable for marcher 1, skipped the first time by the size-equality
guard) and changes the canvas. -/
theorem renderMarchers_not_idempotent :
    (renderMarchers
        (renderMarchers (renderMarchers [] [exPageRow1] exMarchers).canvas
          [exPageRow2] exMarchers).canvas
        [exPageRow2] exMarchers).creates = 0 ∧
    (renderMarchers
        (renderMarchers (renderMarchers [] [exPageRow1] exMarchers).canvas
          [exPageRow2] exMarchers).canvas
        [exPageRow2] exMarchers).updates = 0 ∧
    (renderMarchers
        (renderMarchers (renderMarchers [] [exPageRow1] exMarchers).canvas
          [exPageRow2] exMarchers).canvas
        [exPageRow2] exMarchers).removes = 1 ∧
    (renderMarchers
        (renderMarchers (renderMarchers [] [exPageRow1] exMarchers).canvas
          [exPageRow2] exMarchers).canvas
        [exPageRow2] exMarchers).canvas ≠
      (renderMarchers (renderMarchers [] [exPageRow1] exMarchers).canvas
        [exPageRow2] exMarchers).canvas := by
  refine ⟨by decide, by decide, by decide, by decide⟩

/-- C6 counterexample: when the export fails, `toSVG` re-raises the wrapped
error but does not restore the canvas view — the claim that the viewport and
dimensions are restored on every execution path is false. -/
theorem toSVG_failure_leaves_export_state :
    (toSVG exCanvasView 1600 854 (Except.error ("boom"))).1 =
      Except.error ("Failed to export canvas to SVG: boom") ∧
    (toSVG exCanvasView 1600 854 (Except.error ("boom"))).2 ≠ exCanvasView := by
  refine ⟨rfl, by decide⟩

/-- C6 (amended): `toSVG` restores the viewport transform and the canvas
dimensions when the export succeeds (exactly, whenever the saved dimensions
are nonzero), and on failure re-raises a single descriptive error wrapping
the original error's message while leaving the canvas at the export state
(identity viewport, field dimensions). -/
theorem toSVG_restore_behavior :
    ∀ (c : CanvasView) (fw fh : ℚ) (res : Except String String),
      (∀ svg, res = Except.ok svg →
        (toSVG c fw fh res).1 = Except.ok svg ∧
        (c.width ≠ 0 → c.height ≠ 0 → (toSVG c fw fh res).2 = c)) ∧
      (∀ msg, res = Except.error msg →
        (toSVG c fw fh res).1 =
          Except.error ("Failed to export canvas to SVG: " ++ msg) ∧
        (toSVG c fw fh res).2 =
          { viewportTransform := [1, 0, 0, 1, 0, 0],
            width := fw, height := fh }) := by
  intro c fw fh res
  constructor
  · rintro svg rfl
    refine ⟨rfl, ?_⟩
    intro hw hh
    simp [toSVG, hw, hh]
  · rintro msg rfl
    exact ⟨rfl, rfl⟩

/-- C6 (amended) witness: the restore-on-success and wrap-on-failure facts
at the concrete canvas view. -/
theorem toSVG_restore_behavior_witness :
    ((toSVG exCanvasView 1600 854 (Except.ok ("svg"))).1 =
        Except.ok ("svg") ∧
      (toSVG exCanvasView 1600 854 (Except.ok ("svg"))).2 = exCanvasView) ∧
    (toSVG exCanvasView 1600 854 (Except.error ("oops"))).1 =
      Except.error ("Failed to export canvas to SVG: oops") := by
  have h := toSVG_restore_behavior exCanvasView 1600 854
  have hok := (h (Except.ok ("svg"))).1 ("svg") rfl
  have herr := (h (Except.error ("oops"))).2 ("oops") rfl
  exact ⟨⟨hok.1, hok.2 (by decide) (by decide)⟩, herr.1⟩

/-- C7: `setUiSettings` performs exactly one field-grid rebuild when the new
settings' gridLines or halfLines flag differs from the previous settings —
replacing the grid wholesale with one built from the new flags — and zero
rebuilds otherwise, leaving the grid object unchanged. -/
theorem setUiSettings_grid_rebuild_iff :
    ∀ (s : CanvasUiState) (ui : UiSettings),
      (setUiSettings s ui).2 =
        (if s.uiSettings.gridLines ≠ ui.gridLines ∨
            s.uiSettings.halfLines ≠ ui.halfLines then 1 else 0) ∧
      (setUiSettings s ui).1.staticGrid =
        (if s.uiSettings.gridLines ≠ ui.gridLines ∨
            s.uiSettings.halfLines ≠ ui.halfLines then
          { gridLines := ui.gridLines, halfLines := ui.halfLines,
            generation := s.staticGrid.generation + 1 }
        else s.staticGrid) := by
  intro s ui
  by_cases h : s.uiSettings.gridLines ≠ ui.gridLines ∨
      s.uiSettings.halfLines ≠ ui.halfLines
  · simp [setUiSettings, renderFieldGrid, h]
  · simp [setUiSettings, renderFieldGrid, h]

/-- C9 counterexample: `setUiSettings` copies a supplied pan sensitivity of
100 unclamped, leaving the coefficient outside the claimed [0.1, 3.0]
range. -/
theorem setUiSettings_sensitivity_unclamped :
    (setUiSettings exCanvasUiState exUiSettingsPan100).1.panSensitivity
      = 100 ∧
    ¬((setUiSettings exCanvasUiState
        exUiSettingsPan100).1.panSensitivity ≤ 3) := by
  refine ⟨by decide, by decide⟩

/-- C9 (amended): the dedicated setters clamp the sensitivities into their
ranges (pan and trackpad pan into [0.1, 3.0], zoom into [0.01, 0.5]) for
arbitrary input, but `setUiSettings` copies each truthy supplied sensitivity
value verbatim — without clamping — so after a settings change through
`setUiSettings` a coefficient lies in its range only when the supplied value
does. -/
theorem sensitivity_setters_clamped :
    ∀ (s : CanvasUiState) (v : ℚ),
      (1/10 ≤ (setPanSensitivity s v).panSensitivity ∧
        (setPanSensitivity s v).panSensitivity ≤ 3) ∧
      (1/10 ≤ (setTrackpadPanSensitivity s v).trackpadPanSensitivity ∧
        (setTrackpadPanSensitivity s v).trackpadPanSensitivity ≤ 3) ∧
      (1/100 ≤ (setZoomSensitivity s v).zoomSensitivity ∧
        (setZoomSensitivity s v).zoomSensitivity ≤ 1/2) ∧
      ∀ (ui : UiSettings),
        (setUiSettings s ui).1.panSensitivity =
          (if ui.mouseSettings.panSensitivity ≠ 0 then
            ui.mouseSettings.panSensitivity
          else s.panSensitivity) ∧
        (setUiSettings s ui).1.trackpadPanSensitivity =
          (if ui.mouseSettings.trackpadPanSensitivity ≠ 0 then
            ui.mouseSettings.trackpadPanSensitivity
          else s.trackpadPanSensitivity) ∧
        (setUiSettings s ui).1.zoomSensitivity =
          (if ui.mouseSettings.zoomSensitivity ≠ 0 then
            ui.mouseSettings.zoomSensitivity
          else s.zoomSensitivity) := by
  intro s v
  refine ⟨⟨le_max_left _ _, max_le (by norm_num) (min_le_left _ _)⟩,
    ⟨le_max_left _ _, max_le (by norm_num) (min_le_left _ _)⟩,
    ⟨le_max_left _ _, max_le (by norm_num) (min_le_left _ _)⟩, ?_⟩
  intro ui
  by_cases h : s.uiSettings.gridLines ≠ ui.gridLines ∨
      s.uiSettings.halfLines ≠ ui.halfLines
  · simp [setUiSettings, renderFieldGrid, h]
  · simp [setUiSettings, renderFieldGrid, h]

/-- C8: a `setActiveObjects` call arriving while `handleSelectLock` is held
returns immediately without changing the canvas; a top-level call holds the
lock during its selection change — so a re-entrant call from a
selection-change handler observing the mid-operation state is a no-op — and
releases the lock before returning, with the selection set directly for one
object, as a group for several, and cleared for zero. -/
theorem setActiveObjects_reentrancy :
    ∀ (c : SelCanvas) (objs objs2 : List ℤ),
      (c.handleSelectLock = true → setActiveObjects c objs = c) ∧
      (c.handleSelectLock = false →
        (setActiveObjectsMid objs).handleSelectLock = true ∧
        setActiveObjects (setActiveObjectsMid objs) objs2 =
          setActiveObjectsMid objs ∧
        setActiveObjects c objs =
          { handleSelectLock := false,
            activeSelection := selectionOf objs }) ∧
      (∀ o, selectionOf [o] = SelectionState.single o) ∧
      (selectionOf [] = SelectionState.noneSel) ∧
      (∀ o o2 rest,
        selectionOf (o :: o2 :: rest) = SelectionState.group (o :: o2 :: rest)) := by
  intro c objs objs2
  refine ⟨?_, ?_, fun o => rfl, rfl, fun o o2 rest => rfl⟩
  · intro h
    simp [setActiveObjects, h]
  · intro h
    refine ⟨rfl, ?_, ?_⟩
    · simp [setActiveObjects, setActiveObjectsMid]
    · simp [setActiveObjects, h]

/-- C8 witness: the lock behavior at a concrete canvas — a locked canvas is
left untouched, and an unlocked canvas selecting [5] ends unlocked with a
direct single selection while the mid-operation state absorbs a re-entrant
call selecting [7]. -/
theorem setActiveObjects_reentrancy_witness :
    (setActiveObjects ⟨true, SelectionState.single 3⟩ [5] =
      ⟨true, SelectionState.single 3⟩) ∧
    (setActiveObjectsMid [5]).handleSelectLock = true ∧
    setActiveObjects (setActiveObjectsMid [5]) [7] =
      setActiveObjectsMid [5] ∧
    setActiveObjects ⟨false, SelectionState.noneSel⟩ [5] =
      ⟨false, selectionOf [5]⟩ := by
  have hlocked :=
    (setActiveObjects_reentrancy ⟨true, SelectionState.single 3⟩ [5] [7]).1
      rfl
  have hopen :=
    (setActiveObjects_reentrancy ⟨false, SelectionState.noneSel⟩ [5] [7]).2.1
      rfl
  exact ⟨hlocked, hopen.1, hopen.2.1, hopen.2.2⟩

/-- C10: `getMarcherPages` tests its id filters for truthiness, so an id of
0 behaves like an absent filter: a zero marcher_id or page_id is ignored
(returning all rows rather than the rows matching id 0 — witnessed on a
database that does contain a marcher-0 row), and the combined filter is
applied exactly when both ids are nonzero. -/
theorem getMarcherPages_zero_filter_ignored :
    (∀ db : DbState, getMarcherPages db (some 0) none = db.marcherPages) ∧
    (∀ db : DbState, getMarcherPages db none (some 0) = db.marcherPages) ∧
    (∀ db : DbState,
      getMarcherPages db (some 0) (some 0) = db.marcherPages) ∧
    (∀ (db : DbState) (p : ℤ), p ≠ 0 →
      getMarcherPages db (some 0) (some p) =
        db.marcherPages.filter (fun r => r.page_id == p)) ∧
    (∀ (db : DbState) (m : ℤ), m ≠ 0 →
      getMarcherPages db (some m) (some 0) =
        db.marcherPages.filter (fun r => r.marcher_id == m)) ∧
    (∀ (db : DbState) (m p : ℤ), m ≠ 0 → p ≠ 0 →
      getMarcherPages db (some m) (some p) =
        db.marcherPages.filter
          (fun r => r.marcher_id == m && r.page_id == p)) ∧
    getMarcherPages exDb (some 0) none ≠
      exDb.marcherPages.filter (fun r => r.marcher_id == (0 : ℤ)) := by
  refine ⟨?_, ?_, ?_, ?_, ?_, ?_, by decide⟩
  · intro db; simp [getMarcherPages, truthy]
  · intro db; simp [getMarcherPages, truthy]
  · intro db; simp [getMarcherPages, truthy]
  · intro db p hp; simp [getMarcherPages, truthy, bne, hp]
  · intro db m hm; simp [getMarcherPages, truthy, bne, hm]
  · intro db m p hm hp; simp [getMarcherPages, truthy, bne, hm, hp]

/-- C10 witness: the combined filter at concrete nonzero ids on the concrete
database. -/
theorem getMarcherPages_zero_filter_ignored_witness :
    getMarcherPages exDb (some 1) (some 1) =
      exDb.marcherPages.filter
        (fun r => r.marcher_id == (1 : ℤ) && r.page_id == (1 : ℤ)) := by
  exact getMarcherPages_zero_filter_ignored.2.2.2.2.2.1 exDb 1 1
    (by decide) (by decide)

/-- C1: any `zoomContainer` call from a state whose scale respects the zoom
limits yields a scale inside [MIN_ZOOM, MAX_ZOOM]; every `fitToScreen` call
yields a scale inside the limits unconditionally; and a zoom request
arriving at a bound and pushing past it (zoom-out at or below MIN_ZOOM,
zoom-in at or above MAX_ZOOM) leaves the transform values untouched and
shows exactly one limit notification. -/
theorem zoomContainer_scale_clamped :
    (∀ (tv : TransformValues) (factor x y : ℚ),
      MIN_ZOOM ≤ tv.scale → tv.scale ≤ MAX_ZOOM →
      MIN_ZOOM ≤ (zoomContainer tv factor x y).transformValues.scale ∧
      (zoomContainer tv factor x y).transformValues.scale ≤ MAX_ZOOM) ∧
    (∀ (tv : TransformValues) (fw fh vw vh : ℚ),
      MIN_ZOOM ≤ (fitToScreen tv fw fh vw vh).scale ∧
      (fitToScreen tv fw fh vw vh).scale ≤ MAX_ZOOM) ∧
    (∀ (tv : TransformValues) (factor x y : ℚ),
      tv.scale ≤ MIN_ZOOM → factor < 1 →
      (zoomContainer tv factor x y).transformValues = tv ∧
      (zoomContainer tv factor x y).notifications = 1) ∧
    (∀ (tv : TransformValues) (factor x y : ℚ),
      MAX_ZOOM ≤ tv.scale → 1 < factor →
      (zoomContainer tv factor x y).transformValues = tv ∧
      (zoomContainer tv factor x y).notifications = 1) := by
  refine ⟨?_, ?_, ?_, ?_⟩
  · intro tv factor x y h1 h2
    have hdf : (if 1 < factor then 1 + (factor - 1) * (1/2 : ℚ)
        else 1 - (1 - factor) * (1/2)) = (1 + factor) / 2 := by
      split_ifs <;> ring
    simp only [zoomContainer, hdf]
    split_ifs with hmin hmax hsmall
    · exact ⟨h1, h2⟩
    · exact ⟨h1, h2⟩
    · exact ⟨h1, h2⟩
    · refine ⟨le_max_left _ _, max_le ?_ (min_le_left _ _)⟩
      norm_num [MIN_ZOOM, MAX_ZOOM]
  · intro tv fw fh vw vh
    simp only [fitToScreen]
    refine ⟨le_max_left _ _, max_le ?_ (min_le_left _ _)⟩
    norm_num [MIN_ZOOM, MAX_ZOOM]
  · intro tv factor x y h1 h2
    simp only [zoomContainer]
    rw [if_pos ⟨h1, h2⟩]
    exact ⟨rfl, rfl⟩
  · intro tv factor x y h1 h2
    simp only [zoomContainer]
    have hnotmin : ¬(tv.scale ≤ MIN_ZOOM ∧ factor < 1) := by
      rintro ⟨-, hf⟩
      exact absurd h2 (not_lt_of_lt hf)
    rw [if_neg hnotmin, if_pos ⟨h1, h2⟩]
    exact ⟨rfl, rfl⟩

/-- C1 witness: at scale 1 a zoom-in request stays inside the limits, and at
MIN_ZOOM a further zoom-out request leaves the transform unchanged with one
notification. -/
theorem zoomContainer_scale_clamped_witness :
    (MIN_ZOOM ≤
        (zoomContainer ⟨0, 0, 1, 0, 0⟩ 2 100 50).transformValues.scale ∧
      (zoomContainer ⟨0, 0, 1, 0, 0⟩ 2 100 50).transformValues.scale ≤
        MAX_ZOOM) ∧
    (zoomContainer ⟨0, 0, 1/2, 0, 0⟩ (9/10) 100 50).transformValues =
      ⟨0, 0, 1/2, 0, 0⟩ ∧
    (zoomContainer ⟨0, 0, 1/2, 0, 0⟩ (9/10) 100 50).notifications = 1 := by
  obtain ⟨hin, hfit, hatmin, hatmax⟩ := zoomContainer_scale_clamped
  have a := hin ⟨0, 0, 1, 0, 0⟩ 2 100 50 (by norm_num [MIN_ZOOM])
    (by norm_num [MAX_ZOOM])
  have b := hatmin ⟨0, 0, 1/2, 0, 0⟩ (9/10) 100 50 (by norm_num [MIN_ZOOM])
    (by norm_num)
  exact ⟨a, b.1, b.2⟩

/-- C4: whenever a `zoomContainer` call from an in-range state actually
changes the scale, the anchor point (x, y) maps to the same content-space
coordinate before and after: (x - translateX)/scale is preserved exactly on
both axes, because the new translation is x - (x - translateX)·(s'/s). -/
theorem zoomContainer_anchor_invariant
    (tv : TransformValues) (factor x y : ℚ)
    (h1 : MIN_ZOOM ≤ tv.scale) (h2 : tv.scale ≤ MAX_ZOOM)
    (hchange :
      (zoomContainer tv factor x y).transformValues.scale ≠ tv.scale) :
    (x - tv.translateX) / tv.scale =
      (x - (zoomContainer tv factor x y).transformValues.translateX) /
        (zoomContainer tv factor x y).transformValues.scale ∧
    (y - tv.translateY) / tv.scale =
      (y - (zoomContainer tv factor x y).transformValues.translateY) /
        (zoomContainer tv factor x y).transformValues.scale := by
  have hs : tv.scale ≠ 0 :=
    ne_of_gt (lt_of_lt_of_le (by norm_num [MIN_ZOOM]) h1)
  have hdf : (if 1 < factor then 1 + (factor - 1) * (1/2 : ℚ)
      else 1 - (1 - factor) * (1/2)) = (1 + factor) / 2 := by
    split_ifs <;> ring
  simp only [zoomContainer, hdf] at hchange ⊢
  split_ifs at hchange ⊢ with hmin hmax hsmall
  · exact absurd rfl hchange
  · exact absurd rfl hchange
  · exact absurd rfl hchange
  · dsimp only
    generalize hM :
      max MIN_ZOOM (min MAX_ZOOM (tv.scale * ((1 + factor) / 2))) = M
    have hMne : M ≠ 0 := by
      rw [← hM]
      exact ne_of_gt
        (lt_of_lt_of_le (by norm_num [MIN_ZOOM]) (le_max_left _ _))
    constructor
    · rw [div_eq_div_iff hs hMne]
      field_simp
    · rw [div_eq_div_iff hs hMne]
      field_simp

/-- C4 witness: zooming in by factor 2 from scale 1 anchored at (100, 50)
changes the scale and preserves the anchor's content-space coordinate on
both axes. -/
theorem zoomContainer_anchor_invariant_witness :
    (zoomContainer ⟨0, 0, 1, 0, 0⟩ 2 100 50).transformValues.scale ≠ 1 ∧
    ((100 : ℚ) - (0 : ℚ)) / (1 : ℚ) =
      (100 - (zoomContainer ⟨0, 0, 1, 0, 0⟩ 2 100
          50).transformValues.translateX) /
        (zoomContainer ⟨0, 0, 1, 0, 0⟩ 2 100 50).transformValues.scale := by
  have h := zoomContainer_anchor_invariant ⟨0, 0, 1, 0, 0⟩ 2 100 50
    (by norm_num [MIN_ZOOM]) (by norm_num [MAX_ZOOM])
    (by norm_num [zoomContainer, MIN_ZOOM, MAX_ZOOM, abs_lt])
  exact ⟨by norm_num [zoomContainer, MIN_ZOOM, MAX_ZOOM, abs_lt], h.1⟩

/-- A successful `findRow` lookup returns a database row matching the
update's key. -/
theorem findRow_spec {db : DbState} {u : ModifiedMarcherPageArgs}
    {r : MarcherPage} (h : findRow db u = some r) :
    r ∈ db.marcherPages ∧ r.marcher_id = u.marcher_id ∧
      r.page_id = u.page_id := by
  have hp := List.find?_some h
  simp only [Bool.and_eq_true, beq_iff_eq] at hp
  exact ⟨List.mem_of_find?_eq_some h, hp.1, hp.2⟩

/-- A successful `buildItems` run resolved a row for every update. -/
theorem buildItems_row_exists {db : DbState}
    {us : List ModifiedMarcherPageArgs}
    {items : List (ℤ × ModifiedMarcherPageArgs)}
    (h : buildItems db false us = some items) :
    ∀ u ∈ us, ∃ r, findRow db u = some r := by
  induction us generalizing items with
  | nil => intro u hu; cases hu
  | cons v rest ih =>
    intro u hu
    simp only [buildItems, Option.bind_eq_some, Option.map_eq_some'] at h
    obtain ⟨r, hfr, tail, hbt, -⟩ := h
    rcases List.mem_cons.mp hu with rfl | hu'
    · exact ⟨r, hfr⟩
    · exact ih hbt u hu'

/-- Every collected item of a non-child `buildItems` run comes from an
update in the batch, carries the id of that update's row, and is
unlocked. -/
theorem buildItems_item_src {db : DbState}
    {us : List ModifiedMarcherPageArgs}
    {items : List (ℤ × ModifiedMarcherPageArgs)}
    (h : buildItems db false us = some items) :
    ∀ p ∈ items, p.2 ∈ us ∧
      (∃ r, findRow db p.2 = some r ∧ r.id = p.1) ∧
      isLocked db p.2.marcher_id p.2.page_id = false := by
  induction us generalizing items with
  | nil =>
    simp only [buildItems, Option.some.injEq] at h
    subst h
    intro p hp
    cases hp
  | cons v rest ih =>
    intro p hp
    simp only [buildItems, Option.bind_eq_some, Option.map_eq_some'] at h
    obtain ⟨r, hfr, tail, hbt, hit⟩ := h
    by_cases hlock : isLocked db v.marcher_id v.page_id = true
    · simp only [Bool.false_eq_true, if_false, hlock, if_true] at hit
      subst hit
      obtain ⟨h1, h2, h3⟩ := ih hbt p hp
      exact ⟨List.mem_cons_of_mem _ h1, h2, h3⟩
    · simp only [Bool.false_eq_true, if_false, hlock, if_neg] at hit
      subst hit
      rcases List.mem_cons.mp hp with rfl | hp'
      · exact ⟨List.mem_cons_self _ _, ⟨r, hfr, rfl⟩,
          Bool.not_eq_true _ ▸ hlock⟩
      · obtain ⟨h1, h2, h3⟩ := ih hbt p hp'
        exact ⟨List.mem_cons_of_mem _ h1, h2, h3⟩

/-- An unlocked update of a successful non-child `buildItems` run
contributes its (row id, update) pair to the collected items. -/
theorem buildItems_unlocked_mem {db : DbState}
    {us : List ModifiedMarcherPageArgs}
    {items : List (ℤ × ModifiedMarcherPageArgs)}
    {u : ModifiedMarcherPageArgs}
    (h : buildItems db false us = some items) (hu : u ∈ us)
    (hnl : isLocked db u.marcher_id u.page_id = false) :
    ∃ r, findRow db u = some r ∧ (r.id, u) ∈ items := by
  induction us generalizing items with
  | nil => cases hu
  | cons v rest ih =>
    simp only [buildItems, Option.bind_eq_some, Option.map_eq_some'] at h
    obtain ⟨r, hfr, tail, hbt, hit⟩ := h
    rcases List.mem_cons.mp hu with rfl | hu'
    · simp only [Bool.false_eq_true, if_false, hnl, if_neg] at hit
      subst hit
      exact ⟨r, hfr, List.mem_cons_self _ _⟩
    · obtain ⟨r', hfr', hmem⟩ := ih hbt hu'
      refine ⟨r', hfr', ?_⟩
      by_cases hlock : isLocked db v.marcher_id v.page_id = true
      · simp only [Bool.false_eq_true, if_false, hlock, if_true] at hit
        subst hit
        exact hmem
      · simp only [Bool.false_eq_true, if_false, hlock, if_neg] at hit
        subst hit
        exact List.mem_cons_of_mem _ hmem

/-- Unfolding of `applyItems` on a cons cell. -/
theorem applyItems_cons (mps : List MarcherPage)
    (p : ℤ × ModifiedMarcherPageArgs)
    (rest : List (ℤ × ModifiedMarcherPageArgs)) :
    applyItems mps (p :: rest) =
      applyItems
        (mps.map (fun r =>
          if r.id == p.1 then { r with x := p.2.x, y := p.2.y } else r))
        rest := rfl

/-- A row that every item with its id maps to itself survives `applyItems`
unchanged. -/
theorem applyItems_fixed {items : List (ℤ × ModifiedMarcherPageArgs)}
    {mps : List MarcherPage} {r : MarcherPage} (hr : r ∈ mps)
    (hfix : ∀ p ∈ items, p.1 = r.id →
      ({ r with x := p.2.x, y := p.2.y } : MarcherPage) = r) :
    r ∈ applyItems mps items := by
  induction items generalizing mps with
  | nil => simpa [applyItems] using hr
  | cons p rest ih =>
    rw [applyItems_cons]
    refine ih ?_ (fun q hq hq1 => hfix q (List.mem_cons_of_mem _ hq) hq1)
    by_cases hid : r.id = p.1
    · have heq := hfix p (List.mem_cons_self _ _) hid.symm
      refine List.mem_map.mpr ⟨r, hr, ?_⟩
      have hc : (r.id == p.1) = true := beq_iff_eq.mpr hid
      simp only [hc, if_true]
      exact heq
    · refine List.mem_map.mpr ⟨r, hr, ?_⟩
      have hc : (r.id == p.1) = false := beq_eq_false_iff_ne.mpr hid
      simp only [hc, Bool.false_eq_true, if_false]

/-- A row targeted by an item, all of whose id-matching items carry the same
update, ends up in `applyItems` with that update's position. -/
theorem applyItems_update {items : List (ℤ × ModifiedMarcherPageArgs)}
    {mps : List MarcherPage} {r : MarcherPage}
    {u : ModifiedMarcherPageArgs}
    (hr : r ∈ mps) (hmem : (r.id, u) ∈ items)
    (hall : ∀ p ∈ items, p.1 = r.id → p.2 = u) :
    ({ r with x := u.x, y := u.y } : MarcherPage) ∈ applyItems mps items := by
  induction items generalizing mps with
  | nil => cases hmem
  | cons p rest ih =>
    rw [applyItems_cons]
    by_cases hid : p.1 = r.id
    · have hpu : p.2 = u := hall p (List.mem_cons_self _ _) hid
      have hr' : ({ r with x := u.x, y := u.y } : MarcherPage) ∈
          mps.map (fun q =>
            if q.id == p.1 then { q with x := p.2.x, y := p.2.y } else q) := by
        refine List.mem_map.mpr ⟨r, hr, ?_⟩
        have hc : (r.id == p.1) = true := beq_iff_eq.mpr hid.symm
        simp only [hc, if_true, hpu]
      refine applyItems_fixed hr' ?_
      intro q hq hq1
      have hqu := hall q (List.mem_cons_of_mem _ hq) hq1
      rw [hqu]
    · have hmem' : (r.id, u) ∈ rest := by
        rcases List.mem_cons.mp hmem with heq | h'
        · exact absurd (by rw [← heq]) hid
        · exact h'
      have hrm : r ∈ mps.map (fun q =>
          if q.id == p.1 then { q with x := p.2.x, y := p.2.y } else q) := by
        refine List.mem_map.mpr ⟨r, hr, ?_⟩
        have hc : (r.id == p.1) = false :=
          beq_eq_false_iff_ne.mpr (fun hh => hid hh.symm)
        simp only [hc, Bool.false_eq_true, if_false]
      exact ih hrm hmem' (fun q hq hq1 => hall q (List.mem_cons_of_mem _ hq) hq1)

/-- C5: for a batch passed to `updateMarcherPages` with `isChildAction` at
its default `false`, assuming the database rows have pairwise-distinct ids
and the batch targets pairwise-distinct (marcher_id, page_id) keys, every
update whose target MarcherPage is locked (a ShapePageMarcher record exists
for its marcher_id and page_id) is rejected — the row survives unchanged —
while every update whose target is unlocked is applied, the row ending with
the update's position. -/
theorem updateMarcherPages_lock_respected
    (db db' : DbState) (updates : List ModifiedMarcherPageArgs)
    (hids : db.marcherPages.Pairwise (fun a b => a.id ≠ b.id))
    (hkeys : updates.Pairwise
      (fun a b => ¬(a.marcher_id = b.marcher_id ∧ a.page_id = b.page_id)))
    (h : updateMarcherPages db updates false = some db') :
    ∀ u ∈ updates, ∃ r, findRow db u = some r ∧
      (isLocked db u.marcher_id u.page_id = true → r ∈ db'.marcherPages) ∧
      (isLocked db u.marcher_id u.page_id = false →
        ({ r with x := u.x, y := u.y } : MarcherPage) ∈
          db'.marcherPages) := by
  rw [updateMarcherPages] at h
  obtain ⟨items, hbi, hdb'⟩ := Option.map_eq_some'.mp h
  intro u hu
  obtain ⟨r, hfr⟩ := buildItems_row_exists hbi u hu
  obtain ⟨hrmem, hrm, hrp⟩ := findRow_spec hfr
  have hidsym : Symmetric (fun (a b : MarcherPage) => a.id ≠ b.id) :=
    fun _ _ hab => hab.symm
  have hkeysym : Symmetric (fun (a b : ModifiedMarcherPageArgs) =>
      ¬(a.marcher_id = b.marcher_id ∧ a.page_id = b.page_id)) :=
    fun _ _ hab hba => hab ⟨hba.1.symm, hba.2.symm⟩
  have hsame : ∀ p ∈ items, p.1 = r.id → p.2 = u := by
    intro p hp hpid
    obtain ⟨hpin, ⟨r', hfr', hr'id⟩, -⟩ := buildItems_item_src hbi p hp
    obtain ⟨hr'mem, hr'm, hr'p⟩ := findRow_spec hfr'
    have hrr' : r = r' := by
      by_contra hne
      exact List.Pairwise.forall hidsym hids hrmem hr'mem hne
        (by rw [hr'id, hpid])
    by_cases hpu : p.2 = u
    · exact hpu
    · exfalso
      refine List.Pairwise.forall hkeysym hkeys hpin hu hpu ⟨?_, ?_⟩
      · rw [← hr'm, ← hrr', hrm]
      · rw [← hr'p, ← hrr', hrp]
  have hdbm : db'.marcherPages = applyItems db.marcherPages items := by
    rw [← hdb']
  refine ⟨r, hfr, ?_, ?_⟩
  · intro hlock
    rw [hdbm]
    refine applyItems_fixed hrmem ?_
    intro p hp hpid
    exfalso
    have hpu := hsame p hp hpid
    have hpunl := (buildItems_item_src hbi p hp).2.2
    rw [hpu] at hpunl
    rw [hlock] at hpunl
    cases hpunl
  · intro hnl
    obtain ⟨r2, hfr2, hmem2⟩ := buildItems_unlocked_mem hbi hu hnl
    have hr2 : r2 = r := by
      rw [hfr] at hfr2
      exact (Option.some.inj hfr2).symm
    rw [hdbm]
    exact applyItems_update hrmem (hr2 ▸ hmem2) hsame

/-- C5 witness: on the concrete database, the unlocked (marcher 1, page 1)
update is applied — its row ends at (99, 99) — while the locked
(marcher 2, page 1) update is rejected and its row survives unchanged. -/
theorem updateMarcherPages_lock_respected_witness :
    isLocked exDb 1 1 = false ∧ isLocked exDb 2 1 = true ∧
    (⟨11, 1, 1, 99, 99⟩ : MarcherPage) ∈ exDbAfter.marcherPages ∧
    (⟨12, 2, 1, 7, 7⟩ : MarcherPage) ∈ exDbAfter.marcherPages := by
  have h := updateMarcherPages_lock_respected exDb exDbAfter
    [⟨1, 1, 99, 99⟩, ⟨2, 1, 88, 88⟩] (by decide) (by decide) (by decide)
  obtain ⟨r1, hfr1, -, happly1⟩ := h ⟨1, 1, 99, 99⟩ (by decide)
  obtain ⟨r2, hfr2, hkeep2, -⟩ := h ⟨2, 1, 88, 88⟩ (by decide)
  have hr1 : r1 = ⟨11, 1, 1, 6, 6⟩ := by
    have : findRow exDb ⟨1, 1, 99, 99⟩ = some ⟨11, 1, 1, 6, 6⟩ := by decide
    rw [this] at hfr1
    exact (Option.some.inj hfr1).symm
  have hr2 : r2 = ⟨12, 2, 1, 7, 7⟩ := by
    have : findRow exDb ⟨2, 1, 88, 88⟩ = some ⟨12, 2, 1, 7, 7⟩ := by decide
    rw [this] at hfr2
    exact (Option.some.inj hfr2).symm
  refine ⟨by decide, by decide, ?_, ?_⟩
  · have := happly1 (by decide)
    rw [hr1] at this
    exact this
  · have := hkeep2 (by decide)
    rw [hr2] at this
    exact this

end OpenMarch
